import Mathlib

/-!
Verification of the model lifecycle registry and deployment orchestrator
(`backend/app/ml/models/model_manager.py`).

The Python module is shallowly embedded as pure Lean functions over an
explicit `ManagerState`.  Conventions used throughout:

* The in-memory registry `self.model_registry : Dict[str, ModelArtifact]` is
  modelled as an insertion-ordered association list `List (String × ModelArtifact)`
  (Python dicts preserve insertion order; assignment to an existing key keeps
  its position, which `updOrApp` reproduces).  Object mutation
  (`artifact.status = ...`) becomes a functional update of the list entry.
* Python `float` metric values are modelled as `ℚ`; every metric constant in
  the source (`0.85`, `0.80`, `15.0`, ...) is exactly representable.
* Wall-clock calls (`datetime.now()`) are threaded as explicit `Nat`
  timestamps; latencies measured from the clock are explicit `ℚ` inputs.
* External collaborators that the source delegates to are oracles:
  `loadable : String → Bool` abstracts whether `_load_model_service` on a
  given model id succeeds with `model_loaded = True` (file-system joblib
  loading), `train_ok : Bool` abstracts whether the external
  `HealthScoringService.train_model` call succeeds, and the sklearn metric
  functions / SHA-256 digest are function parameters.  The spec's scope
  section places the training/inference/metric math outside this subsystem.
* Filesystem side effects that never touch the registry state (directory
  creation, joblib dumps, the JSON mirror written by `_save_model_registry`,
  backups) are elided; the registry state is the in-memory one.
* Exceptions are modelled with `Option`/sum-shaped results: a raised
  `ValueError`/`KeyError`/`RuntimeError` is an explicit error value carrying
  the state at the raise point.
-/

/-- Embedding of the `ModelStatus` enum (model_manager.py lines 37-44). -/
inductive ModelStatus where
  | TRAINING
  | VALIDATION
  | STAGING
  | PRODUCTION
  | DEPRECATED
  | FAILED
deriving DecidableEq, Repr

/-- Embedding of the `DeploymentStrategy` enum (lines 47-52). -/
inductive DeploymentStrategy where
  | BLUE_GREEN
  | CANARY
  | ROLLING
  | IMMEDIATE
deriving DecidableEq, Repr

/-- Embedding of the `ModelVersion` dataclass (lines 55-83): a semantic
version triple.  The Python fields are `int`; all values occurring in the
program are non-negative, so they are modelled as `Nat`. -/
structure ModelVersion where
  major : Nat := 1
  minor : Nat := 0
  patch : Nat := 0
deriving DecidableEq, Repr

/-- Embedding of `ModelVersion.increment_patch` (lines 65-67). -/
def ModelVersion.increment_patch (v : ModelVersion) : ModelVersion :=
  { major := v.major, minor := v.minor, patch := v.patch + 1 }

/-- Embedding of `ModelVersion.increment_minor` (lines 69-71). -/
def ModelVersion.increment_minor (v : ModelVersion) : ModelVersion :=
  { major := v.major, minor := v.minor + 1, patch := 0 }

/-- Embedding of `ModelVersion.increment_major` (lines 73-75). -/
def ModelVersion.increment_major (v : ModelVersion) : ModelVersion :=
  { major := v.major + 1, minor := 0, patch := 0 }

/-- Embedding of `ModelVersion.__str__` (lines 62-63): `"major.minor.patch"`. -/
def ModelVersion.versionString (v : ModelVersion) : String :=
  toString v.major ++ "." ++ toString v.minor ++ "." ++ toString v.patch

/-- Decimal parse of a character list, mimicking Python `int(s)` restricted to
the non-negative digit strings that version components are; any other input
raises `ValueError` in Python, modelled as `none`. -/
def natOfDigitsAux : List Char → Nat → Option Nat
  | [], acc => some acc
  | c :: cs, acc =>
    if c.isDigit then natOfDigitsAux cs (acc * 10 + (c.toNat - '0'.toNat))
    else none

/-- Parse a non-empty all-digit character list as a natural number. -/
def natOfDigits? : List Char → Option Nat
  | [] => none
  | c :: cs => natOfDigitsAux (c :: cs) 0

/-- Split a character list at every `'.'`, keeping empty segments, mimicking
Python `version_str.split('.')`. -/
def splitOnDot : List Char → List (List Char)
  | [] => [[]]
  | c :: cs =>
    if c = '.' then [] :: splitOnDot cs
    else
      match splitOnDot cs with
      | [] => [[c]]
      | seg :: rest => (c :: seg) :: rest

/-- Embedding of `ModelVersion.from_string` (lines 77-83): split on `'.'`,
require exactly three parts, parse each as an integer.  Python raises
`ValueError` on a malformed string; here that is `none` (every caller of
`from_string` in the module has the raised `ValueError` caught by the same
handler that treats a `None` lookup result as failure). -/
def ModelVersion.from_string (s : String) : Option ModelVersion :=
  match splitOnDot s.data with
  | [p0, p1, p2] =>
    match natOfDigits? p0, natOfDigits? p1, natOfDigits? p2 with
    | some a, some b, some c => some { major := a, minor := b, patch := c }
    | _, _, _ => none
  | _ => none

/-- Version key tuple used by `_get_latest_version`'s
`key=lambda a: (a.version.major, a.version.minor, a.version.patch)`
(lines 693-694). -/
def ModelVersion.key (v : ModelVersion) : Nat × Nat × Nat :=
  (v.major, v.minor, v.patch)

/-- Python tuple comparison `(a, b, c) < (x, y, z)`: strict comparison on the
first differing component. -/
def pyTupleLt (a b : Nat × Nat × Nat) : Bool :=
  decide (a.1 < b.1) ||
    (a.1 == b.1 &&
      (decide (a.2.1 < b.2.1) || (a.2.1 == b.2.1 && decide (a.2.2 < b.2.2))))

/-- Version order of the module: the order of the key tuples that
`_get_latest_version` maximises over.  (`ModelVersion` itself is a plain
dataclass without `order=True`, so this tuple comparison is the only version
comparison the source performs.) -/
def ModelVersion.lt (v w : ModelVersion) : Bool :=
  pyTupleLt v.key w.key

/-- Metrics dictionary returned by the validation stubs and stored into
`artifact.performance_metrics` (`{'r2_score': .., 'rmse': .., 'mae': ..}`,
lines 730-734 and 744-747). -/
structure ValidationMetrics where
  r2_score : ℚ
  rmse : ℚ
  mae : ℚ
deriving DecidableEq, Repr

/-- Validation result dictionary produced by `_run_validation` /
`_run_synthetic_validation`: the `passed` flag and the metrics.  The
`validation_date` / `note` fields carry no control flow and are elided. -/
structure ValidationResult where
  passed : Bool
  metrics : ValidationMetrics
deriving DecidableEq, Repr

/-- Embedding of the `ModelArtifact` dataclass (lines 86-118) restricted to
the fields the lifecycle logic reads: `id`, `version`, `status`,
`created_at` (a timestamp, modelled as `Nat`), `created_by`, and the
validation / performance metric dictionaries (empty dict `{}` is `none`).
`file_path`, `checksum`, `size_bytes`, `metadata` and `deployment_config`
are filesystem/free-form payload never consulted by the state transitions
modelled here (`deployment_config.get('backup_before_deploy', True)` only
gates the best-effort filesystem backup, which has no registry effect). -/
structure ModelArtifact where
  id : String
  version : ModelVersion
  status : ModelStatus
  created_at : Nat
  created_by : String
  performance_metrics : Option ValidationMetrics := none
  validation_results : Option ValidationResult := none
deriving DecidableEq, Repr

/-- Embedding of the `PerformanceMetrics` dataclass (lines 121-134). -/
structure PerformanceMetrics where
  timestamp : Nat
  model_version : String
  accuracy_score : ℚ
  r2_score : ℚ
  rmse : ℚ
  mae : ℚ
  prediction_latency_ms : ℚ
  throughput_requests_per_second : ℚ
  drift_score : ℚ
  data_quality_score : ℚ
  alerts_triggered : List String
deriving DecidableEq, Repr

/-- Embedding of the `RetrainingConfig` dataclass (lines 143-154) with its
source defaults. -/
structure RetrainingConfig where
  enabled : Bool := true
  schedule_cron : String := "0 2 * * 0"
  min_samples_required : Nat := 100
  performance_threshold : ℚ := 0.75
  drift_threshold : ℚ := 0.3
  validation_split : ℚ := 0.2
  auto_deploy_threshold : ℚ := 0.85
  backup_before_deploy : Bool := true
  notification_enabled : Bool := true
deriving DecidableEq, Repr

/-- Mutable state of an `MLModelManager` instance (lines 191-203): the model
registry, the production/staging pointers, the performance history, the
monitoring threshold, and the retraining guard and configuration.  The
persistence mirror (`registry_loaded`, `_save_model_registry`) is elided:
all operations below act on the already-loaded in-memory state. -/
structure ManagerState where
  model_registry : List (String × ModelArtifact)
  current_production_model : Option String
  staging_model : Option String
  performance_history : List PerformanceMetrics
  monitoring_enabled : Bool
  performance_alert_threshold : ℚ
  retraining_config : RetrainingConfig
  retraining_in_progress : Bool
deriving DecidableEq, Repr

/-- Freshly constructed manager (constructor defaults, lines 191-203). -/
def initState : ManagerState where
  model_registry := []
  current_production_model := none
  staging_model := none
  performance_history := []
  monitoring_enabled := true
  performance_alert_threshold := 0.75
  retraining_config := {}
  retraining_in_progress := false

/-- Dictionary lookup `registry[k]` / `k in registry` on the association
list. -/
def lookupA (reg : List (String × ModelArtifact)) (k : String) : Option ModelArtifact :=
  match reg with
  | [] => none
  | kv :: rest => if kv.1 = k then some kv.2 else lookupA rest k

/-- Dictionary assignment `registry[k] = v`: replace in place when the key
exists (Python dicts keep the original position), append otherwise. -/
def updOrApp (k : String) (v : ModelArtifact) :
    List (String × ModelArtifact) → List (String × ModelArtifact)
  | [] => [(k, v)]
  | kv :: rest => if kv.1 = k then (k, v) :: rest else kv :: updOrApp k v rest

/-- Object mutation `registry[k].status = st` as a functional update. -/
def setStatus (k : String) (st : ModelStatus) (reg : List (String × ModelArtifact)) :
    List (String × ModelArtifact) :=
  reg.map fun kv => if kv.1 = k then (kv.1, { kv.2 with status := st }) else kv

/-- Status of the artifact stored under a key, when present. -/
def statusOf (reg : List (String × ModelArtifact)) (k : String) : Option ModelStatus :=
  (lookupA reg k).map ModelArtifact.status

/-- Number of artifacts currently holding `PRODUCTION` status. -/
def productionCount (reg : List (String × ModelArtifact)) : Nat :=
  (reg.filter fun kv => kv.2.status = ModelStatus.PRODUCTION).length

/-- Embedding of `_get_latest_version` (lines 688-695): `ModelVersion(1,0,0)`
for an empty registry, else `max(values, key=version key tuple)` — Python's
`max` keeps the first of equal maxima, i.e. replaces the running best only on
a strictly greater key. -/
def get_latest_version (reg : List (String × ModelArtifact)) : ModelVersion :=
  match reg with
  | [] => { major := 1, minor := 0, patch := 0 }
  | kv :: rest =>
    (rest.foldl
      (fun best x => if pyTupleLt best.2.version.key x.2.version.key then x else best)
      kv).2.version

/-- Version bump performed by `create_model_version` (lines 291-298): any
`version_type` other than `"major"`/`"minor"` falls through to a patch
bump. -/
def bumped_version (s : ManagerState) (version_type : String) : ModelVersion :=
  let latest := get_latest_version s.model_registry
  if version_type = "major" then latest.increment_major
  else if version_type = "minor" then latest.increment_minor
  else latest.increment_patch

/-- Model id generated by `create_model_version` (line 301):
`f"health_scoring_{new_version}_{int(datetime.now().timestamp())}"`. -/
def gen_model_id (s : ManagerState) (version_type : String) (now : Nat) : String :=
  "health_scoring_" ++ (bumped_version s version_type).versionString ++ "_" ++ toString now

/-- Artifact record created by `create_model_version` (lines 329-342):
status `TRAINING`, empty metric dictionaries. -/
def new_artifact (s : ManagerState) (version_type : String) (now : Nat)
    (created_by : String) : ModelArtifact :=
  { id := gen_model_id s version_type now
    version := bumped_version s version_type
    status := ModelStatus.TRAINING
    created_at := now
    created_by := created_by }

/-- Embedding of `create_model_version` (lines 269-353): bump the latest
version per `version_type`, derive the id, insert a `TRAINING` artifact with
empty metric dictionaries.  The filesystem artifact dump, checksum and size
computation have no registry-visible effect and are elided.  Returns the new
state and the created model id. -/
def create_model_version (s : ManagerState) (version_type : String) (now : Nat)
    (created_by : String) : ManagerState × String :=
  ({ s with
      model_registry := updOrApp (gen_model_id s version_type now)
        (new_artifact s version_type now created_by) s.model_registry },
    gen_model_id s version_type now)

/-- Embedding of `_run_validation` (lines 723-736): the validation logic is a
stub that always passes with fixed metrics. -/
def run_validation : ValidationResult :=
  { passed := true, metrics := { r2_score := 0.85, rmse := 12.5, mae := 8.3 } }

/-- Embedding of `_run_synthetic_validation` (lines 738-751): always passes
with fixed synthetic-data metrics. -/
def run_synthetic_validation : ValidationResult :=
  { passed := true, metrics := { r2_score := 0.80, rmse := 15.0, mae := 10.0 } }

/-- Embedding of `validate_model` (lines 355-405).  Raises (`.error`) when
the id is unknown or `_load_model_service` fails; otherwise stores the
validation result on the artifact, mirrors its metrics into
`performance_metrics`, and sets the status to `VALIDATION` on pass /
`FAILED` on fail.  Both raise points precede every mutation, so the state
accompanying an error is unchanged. -/
def validate_model (loadable : String → Bool) (s : ManagerState) (model_id : String)
    (has_validation_data : Bool) : ManagerState × Except String ValidationResult :=
  match lookupA s.model_registry model_id with
  | none => (s, Except.error "model not found in registry")
  | some artifact =>
    if loadable model_id then
      let vr := if has_validation_data then run_validation else run_synthetic_validation
      let artifact' :=
        { artifact with
            validation_results := some vr
            performance_metrics := some vr.metrics
            status := if vr.passed then ModelStatus.VALIDATION else ModelStatus.FAILED }
      ({ s with model_registry := updOrApp model_id artifact' s.model_registry },
        Except.ok vr)
    else (s, Except.error "failed to load model")

/-- Result of `deploy_model` as seen by its caller: `success`/`failed` map to
the returned booleans; `error` is a raised (and re-raised, lines 465-467)
exception. -/
inductive DeployOutcome where
  | success
  | failed
  | error
deriving DecidableEq, Repr

/-- Embedding of `_execute_deployment` together with the four strategy
methods (lines 753-802): `CANARY`, `ROLLING` and `IMMEDIATE` all delegate to
`_blue_green_deployment`, which succeeds exactly when the new model loads
with `model_loaded = True` (the `loadable` oracle) and on success makes the
staging service live.  Exceptions inside are caught and mapped to `False`
(lines 764-766). -/
def execute_deployment (loadable : String → Bool) (model_id : String)
    (strategy : DeploymentStrategy) : Bool :=
  match strategy with
  | DeploymentStrategy.BLUE_GREEN => loadable model_id
  | DeploymentStrategy.CANARY => loadable model_id
  | DeploymentStrategy.ROLLING => loadable model_id
  | DeploymentStrategy.IMMEDIATE => loadable model_id

/-- Embedding of `deploy_model` (lines 407-467).  Paths, in source order:
unknown id → `ValueError` (re-raised); status outside
`{VALIDATION, STAGING}` without `force` → `ValueError` (re-raised);
best-effort backup (filesystem only); `_execute_deployment` failure →
returns `False` with nothing mutated; success → the blue-green staging swap
(`staging_model := model_id`), the previous production artifact (if any) is
marked `DEPRECATED`, the new artifact `PRODUCTION`, and the production
pointer moves. -/
def deploy_model (loadable : String → Bool) (s : ManagerState) (model_id : String)
    (strategy : DeploymentStrategy) (force : Bool) : ManagerState × DeployOutcome :=
  match lookupA s.model_registry model_id with
  | none => (s, DeployOutcome.error)
  | some artifact =>
    if ¬ force ∧ artifact.status ≠ ModelStatus.VALIDATION ∧
        artifact.status ≠ ModelStatus.STAGING then
      (s, DeployOutcome.error)
    else if execute_deployment loadable model_id strategy then
      let reg1 :=
        match s.current_production_model with
        | some c => setStatus c ModelStatus.DEPRECATED s.model_registry
        | none => s.model_registry
      let reg2 := setStatus model_id ModelStatus.PRODUCTION reg1
      ({ s with
          model_registry := reg2
          staging_model := some model_id
          current_production_model := some model_id },
        DeployOutcome.success)
    else (s, DeployOutcome.failed)

/-- Embedding of `_find_model_by_version` (lines 821-831): parse the version
string, then return the first registry entry (dict iteration = insertion
order) whose version triple matches component-wise. -/
def find_model_by_version (reg : List (String × ModelArtifact)) (version_str : String) :
    Option String :=
  match ModelVersion.from_string version_str with
  | none => none
  | some tv =>
    (reg.find? fun kv =>
      kv.2.version.major == tv.major && kv.2.version.minor == tv.minor &&
        kv.2.version.patch == tv.patch).map Prod.fst

/-- Embedding of `_find_latest_deprecated_model` (lines 833-845): among
`DEPRECATED` artifacts, the maximum by `created_at` (Python `max` keeps the
first of equal maxima). -/
def find_latest_deprecated_model (reg : List (String × ModelArtifact)) : Option String :=
  match reg.filter (fun kv => kv.2.status = ModelStatus.DEPRECATED) with
  | [] => none
  | kv :: rest =>
    some ((rest.foldl
      (fun best x => if best.2.created_at < x.2.created_at then x else best) kv).1)

/-- Embedding of `_verify_model_loadable` (lines 847-854): load attempt
collapsed into the `loadable` oracle, exceptions mapped to `False`. -/
def verify_model_loadable (loadable : String → Bool) (model_id : String) : Bool :=
  loadable model_id

/-- Spec error taxonomy (§7 of the spec) for the `ValueError`s raised inside
`rollback_model`: no production model → `PreconditionFailed`; target version
unresolvable (including a malformed version string) or no deprecated model →
`NotFound`; target artifact not loadable → `LoadFailure`.  `MissingKey` is
the `KeyError` Python would raise reading `registry[current_production_model]`
when the pointer names an absent key. -/
inductive RollbackError where
  | NotFound
  | PreconditionFailed
  | LoadFailure
  | MissingKey
deriving DecidableEq, Repr

/-- Target resolution of `rollback_model` (lines 487-496): an explicit
version goes through `_find_model_by_version`, otherwise the most recently
deprecated model is used. -/
def resolve_rollback_target (reg : List (String × ModelArtifact))
    (target_version : Option String) : Option String :=
  match target_version with
  | some v => find_model_by_version reg v
  | none => find_latest_deprecated_model reg

/-- Body of `rollback_model`'s `try` block (lines 479-525), following source
order: require a production pointer, resolve the target (explicit version via
`_find_model_by_version`, else `_find_latest_deprecated_model`), verify the
target loads, then swap statuses (`current → DEPRECATED`, `target →
PRODUCTION`), move the pointer, and reload the live production model (which
re-runs `_load_model_service` on the target; under the deterministic
`loadable` oracle this re-check can no longer fail).  The returned state is
the state at the point of raising/returning. -/
def rollback_inner (loadable : String → Bool) (s : ManagerState)
    (target_version : Option String) : ManagerState × Option RollbackError :=
  match s.current_production_model with
  | none => (s, some RollbackError.PreconditionFailed)
  | some c =>
    match resolve_rollback_target s.model_registry target_version with
    | none => (s, some RollbackError.NotFound)
    | some t =>
      if verify_model_loadable loadable t then
        match lookupA s.model_registry c with
        | none => (s, some RollbackError.MissingKey)
        | some _ =>
          let reg := setStatus t ModelStatus.PRODUCTION
            (setStatus c ModelStatus.DEPRECATED s.model_registry)
          let s' := { s with
            model_registry := reg
            current_production_model := some t }
          if loadable t then (s', none)
          else (s', some RollbackError.LoadFailure)
      else (s, some RollbackError.LoadFailure)

/-- Embedding of `rollback_model` (lines 469-529): every exception raised in
the body is caught by the blanket handler (lines 527-529), logged, and turned
into a plain `False` return; a completed swap returns `True`. -/
def rollback_model (loadable : String → Bool) (s : ManagerState)
    (target_version : Option String) : ManagerState × Bool :=
  match rollback_inner loadable s target_version with
  | (s', some _) => (s', false)
  | (s', none) => (s', true)

/-- Embedding of `_should_retrain` (lines 977-996): requires the feature
flag, enough samples (`len(new_data.get('features', {}))`, passed here as the
already-taken length `sample_count`), and then triggers on degraded r² or
drift in the most recent performance record. -/
def should_retrain (s : ManagerState) (sample_count : Nat) : Bool :=
  if ¬ s.retraining_config.enabled then false
  else if sample_count < s.retraining_config.min_samples_required then false
  else
    match s.performance_history.getLast? with
    | some recent =>
      decide (recent.r2_score < s.retraining_config.performance_threshold) ||
        decide (s.retraining_config.drift_threshold < recent.drift_score)
    | none => false

/-- Outcome of one `_execute_retraining` run: the final state, the returned
boolean, whether `deploy_model` was invoked, and the id of the version
created (when control reached that point). -/
structure RetrainOutcome where
  state : ManagerState
  result : Bool
  deploy_invoked : Bool
  created_id : Option String
deriving Repr

/-- Embedding of `_execute_retraining` (lines 998-1031): train externally
(`train_ok` oracle; a raised training exception is caught by the blanket
handler → `False`), create a minor version, validate it (no validation data →
synthetic path; a raised load failure is likewise caught → `False`), then
auto-deploy exactly when `passed` and the reported r² is at least
`auto_deploy_threshold`.  The boolean result of `deploy_model` is discarded
by the source; the run returns `True` once validation completed. -/
def execute_retraining (loadable : String → Bool) (train_ok : Bool) (now : Nat)
    (s : ManagerState) : RetrainOutcome :=
  if ¬ train_ok then { state := s, result := false, deploy_invoked := false, created_id := none }
  else
    let s1 := (create_model_version s "minor" now "automated_retraining").1
    let model_id := (create_model_version s "minor" now "automated_retraining").2
    let vres := validate_model loadable s1 model_id false
    match vres.2 with
    | Except.error _ =>
      { state := vres.1, result := false, deploy_invoked := false, created_id := some model_id }
    | Except.ok vr =>
      if vr.passed = true ∧
          vres.1.retraining_config.auto_deploy_threshold ≤ vr.metrics.r2_score then
        { state := (deploy_model loadable vres.1 model_id DeploymentStrategy.BLUE_GREEN false).1
          result := true, deploy_invoked := true, created_id := some model_id }
      else
        { state := vres.1, result := true, deploy_invoked := false, created_id := some model_id }

/-- Embedding of `trigger_retraining` (lines 585-630): immediate `False` when
a run is already in progress; `False` when conditions are not met (absent
`force`); otherwise set the guard, run the pipeline, and clear the guard in
the `finally` block whatever the outcome. -/
def trigger_retraining (loadable : String → Bool) (train_ok : Bool) (now : Nat)
    (s : ManagerState) (sample_count : Nat) (force : Bool) : ManagerState × Bool :=
  if s.retraining_in_progress then (s, false)
  else if ¬ force ∧ should_retrain s sample_count = false then (s, false)
  else
    let s1 := { s with retraining_in_progress := true }
    let out := execute_retraining loadable train_ok now s1
    ({ out.state with retraining_in_progress := false }, out.result)

/-- Truthiness of the Python `if actual_outcomes:` test (line 878): `None`
and the empty dict are falsy. -/
def truthyOutcomes : Option (List (String × ℚ)) → Bool
  | none => false
  | some [] => false
  | some (_ :: _) => true

/-- Embedding of `_calculate_performance_metrics` (lines 861-914).  The
sklearn metric functions are external math, passed as parameters `r2f`
(`r2_score`), `rmsef` (`sqrt ∘ mean_squared_error`) and `maef`
(`mean_absolute_error`), each applied to `(actual_values, predicted_values)`;
`_calculate_drift_score` is a bounded random stub, passed as the `drift`
input; `_assess_data_quality` returns the constant `0.85`.  `health_scores`
is the prediction dict; `prod_version` is the version string of the artifact
under the production pointer (the caller guarantees the pointer is set). -/
def calculate_performance_metrics (r2f rmsef maef : List ℚ → List ℚ → ℚ)
    (s : ManagerState) (health_scores : List (String × ℚ))
    (actual_outcomes : Option (List (String × ℚ))) (latency_ms : ℚ) (drift : ℚ)
    (now : Nat) : PerformanceMetrics :=
  let prediction_count : ℚ := health_scores.length
  let throughput := if 0 < latency_ms then prediction_count / (latency_ms / 1000) else 0
  let defaults : ValidationMetrics := { r2_score := 0.80, rmse := 15.0, mae := 10.0 }
  let computed : ValidationMetrics :=
    match actual_outcomes with
    | none => defaults
    | some outcomes =>
      if outcomes = [] then defaults
      else if 1 < health_scores.length then
        let predicted_values := health_scores.map Prod.snd
        let actual_values := health_scores.map fun kv =>
          (match (outcomes.find? fun o => o.1 == kv.1) with
            | some o => o.2
            | none => 0)
        { r2_score := r2f actual_values predicted_values
          rmse := rmsef actual_values predicted_values
          mae := maef actual_values predicted_values }
      else defaults
  let data_quality_score : ℚ := 0.85
  let alerts :=
    (if computed.r2_score < s.performance_alert_threshold then ["low_r2_score"] else []) ++
    (if (0.3 : ℚ) < drift then ["high_drift_detected"] else []) ++
    (if data_quality_score < (0.8 : ℚ) then ["low_data_quality"] else [])
  let prod_version :=
    match s.current_production_model with
    | some pid =>
      (lookupA s.model_registry pid).map fun (a : ModelArtifact) => a.version.versionString
    | none => none
  { timestamp := now
    model_version := prod_version.getD ""
    accuracy_score := 0.85
    r2_score := computed.r2_score
    rmse := computed.rmse
    mae := computed.mae
    prediction_latency_ms := latency_ms
    throughput_requests_per_second := throughput
    drift_score := drift
    data_quality_score := data_quality_score
    alerts_triggered := alerts }

/-- Embedding of `monitor_performance` (lines 531-583): raises when there is
no production model or the production model fails to load (re-raised, lines
581-583); otherwise scores the batch (the scores and the measured latency and
drift are oracle inputs), computes the metrics, and appends them to the
history. -/
def monitor_performance (r2f rmsef maef : List ℚ → List ℚ → ℚ)
    (loadable : String → Bool) (s : ManagerState)
    (health_scores : List (String × ℚ))
    (actual_outcomes : Option (List (String × ℚ))) (latency_ms : ℚ) (drift : ℚ)
    (now : Nat) : ManagerState × Except String PerformanceMetrics :=
  match s.current_production_model with
  | none => (s, Except.error "No production model to monitor")
  | some pid =>
    if loadable pid then
      let m := calculate_performance_metrics r2f rmsef maef s health_scores
        actual_outcomes latency_ms drift now
      ({ s with performance_history := s.performance_history ++ [m] }, Except.ok m)
    else (s, Except.error "Failed to load model")

/-- Lexicographic `≤` on character lists, the order `sorted()` applies to the
artifact directory paths in `_calculate_checksum` (line 701). -/
def charsLe (a b : List Char) : Bool :=
  match a, b with
  | [], _ => true
  | _ :: _, [] => false
  | c :: cs, d :: ds => if c = d then charsLe cs ds else decide (c < d)

/-- Path order on `(path, contents)` files, lifting `charsLe`. -/
def pathKeyLe (a b : String × List Nat) : Prop :=
  charsLe a.1.data b.1.data = true

instance : DecidableRel pathKeyLe := fun a b =>
  inferInstanceAs (Decidable (charsLe a.1.data b.1.data = true))

/-- Strict companion of `pathKeyLe`: path-below and distinct paths. -/
def pathKeyLt (a b : String × List Nat) : Prop :=
  pathKeyLe a b ∧ a.1 ≠ b.1

/-- Sort an artifact directory's files by path (the `sorted(model_dir.rglob('*'))`
of line 701).  A directory is modelled as a finite list of
`(path, byte contents)` pairs, bytes as `Nat`. -/
def sortByPath (dir : List (String × List Nat)) : List (String × List Nat) :=
  List.insertionSort pathKeyLe dir

/-- Byte stream fed to the SHA-256 hasher by `_calculate_checksum`
(lines 697-706): the concatenation of the raw contents of every file, taken
in sorted path order.  Note the loop hashes only `f.read()` — neither the
path nor any separator enters the stream. -/
def hasher_input (dir : List (String × List Nat)) : List Nat :=
  ((sortByPath dir).map Prod.snd).flatten

/-- Embedding of `_calculate_checksum` (lines 697-706), with the SHA-256
digest as an external function parameter `sha256` applied to the accumulated
byte stream. -/
def calculate_checksum (sha256 : List Nat → List Nat)
    (dir : List (String × List Nat)) : List Nat :=
  sha256 (hasher_input dir)

/-- Identity digest, used to exhibit hash-independent checksum facts on
concrete directories. -/
def idDigest : List Nat → List Nat := fun bytes => bytes

/-- Trivial external metric function, used to instantiate the sklearn
parameters in concrete monitoring scenarios. -/
def zeroMetric : List ℚ → List ℚ → ℚ := fun _ _ => 0

/-- One registry-mutating call, for stating reachability: the three
operations claim C1 quantifies over, with their explicit clock inputs. -/
inductive RegistryOp where
  | create (version_type : String) (now : Nat) (created_by : String)
  | deploy (model_id : String) (strategy : DeploymentStrategy) (force : Bool)
  | rollback (target_version : Option String)

/-- Apply one operation, discarding the value returned to the caller. -/
def applyOp (loadable : String → Bool) (s : ManagerState) : RegistryOp → ManagerState
  | RegistryOp.create version_type now created_by =>
    (create_model_version s version_type now created_by).1
  | RegistryOp.deploy model_id strategy force =>
    (deploy_model loadable s model_id strategy force).1
  | RegistryOp.rollback target_version =>
    (rollback_model loadable s target_version).1

/-- Run a finite sequence of registry operations. -/
def runOps (loadable : String → Bool) (s : ManagerState) (ops : List RegistryOp) :
    ManagerState :=
  ops.foldl (applyOp loadable) s

/-- Registry well-formedness carried through the C1 induction: keys are
duplicate-free (automatic for a Python dict) and every `PRODUCTION` artifact
sits under the key named by the production pointer. -/
def GoodState (s : ManagerState) : Prop :=
  (s.model_registry.map Prod.fst).Nodup ∧
  ∀ kv ∈ s.model_registry, kv.2.status = ModelStatus.PRODUCTION →
    s.current_production_model = some kv.1

/-- Loading oracle under which every artifact loads successfully. -/
def allLoadable : String → Bool := fun _ => true

/-- Artifact fixture for concrete scenarios. -/
def mkArtifact (model_id : String) (v : ModelVersion) (st : ModelStatus)
    (created : Nat) : ModelArtifact :=
  { id := model_id, version := v, status := st, created_at := created,
    created_by := "system" }

/-- Manager-state fixture: a given registry and production pointer over the
constructor defaults. -/
def baseState (reg : List (String × ModelArtifact)) (cur : Option String) :
    ManagerState :=
  { model_registry := reg
    current_production_model := cur
    staging_model := none
    performance_history := []
    monitoring_enabled := true
    performance_alert_threshold := 0.75
    retraining_config := {}
    retraining_in_progress := false }

/-- Scenario of claim C3: `v1.0.0` deprecated at `T0 = 100`, `v1.1.0` in
production, `v1.0.1` deprecated at `T1 = 300 > T0`. -/
def exRollbackState : ManagerState :=
  baseState
    [("m_v100", mkArtifact "m_v100" ⟨1, 0, 0⟩ ModelStatus.DEPRECATED 100),
     ("m_v110", mkArtifact "m_v110" ⟨1, 1, 0⟩ ModelStatus.PRODUCTION 200),
     ("m_v101", mkArtifact "m_v101" ⟨1, 0, 1⟩ ModelStatus.DEPRECATED 300)]
    (some "m_v110")

/-- Registry whose production pointer names the only artifact, `v1.0.0` in
production: rolling back to `"1.0.0"` resolves to the artifact that is
already in production. -/
def selfRollbackState : ManagerState :=
  baseState [("m1", mkArtifact "m1" ⟨1, 0, 0⟩ ModelStatus.PRODUCTION 0)] (some "m1")

/-- State with no production model. -/
def noProdState : ManagerState := baseState [] none

/-- State with one freshly created (`TRAINING`) artifact and no production
model. -/
def trainOnlyState : ManagerState :=
  baseState [("m1", mkArtifact "m1" ⟨1, 0, 1⟩ ModelStatus.TRAINING 0)] none

/-- State in which a retraining run is already in flight. -/
def busyState : ManagerState :=
  { noProdState with retraining_in_progress := true }

/-- State whose production artifact carries the metrics stored by a
data-backed `validate_model` run (`_run_validation`'s `r2 = 0.85`,
`rmse = 12.5`, `mae = 8.3`). -/
def validatedProdState : ManagerState :=
  baseState
    [("mp", { mkArtifact "mp" ⟨1, 0, 0⟩ ModelStatus.PRODUCTION 0 with
        performance_metrics := some run_validation.metrics
        validation_results := some run_validation })]
    (some "mp")

/-- Artifact directory fixtures for the checksum claims. -/
def dirBase : List (String × List Nat) := [("model.joblib", [10, 20, 30])]

/-- Directory `dirBase` with one additional empty file. -/
def dirWithEmpty : List (String × List Nat) :=
  [("model.joblib", [10, 20, 30]), ("metadata.json", [])]

/-- Two-file directory and a permutation of it. -/
def dirTwo : List (String × List Nat) :=
  [("model.joblib", [10, 20, 30]), ("scaler.joblib", [4, 5])]

/-- Permutation of `dirTwo` (a different traversal order of the same files). -/
def dirTwoPerm : List (String × List Nat) :=
  [("scaler.joblib", [4, 5]), ("model.joblib", [10, 20, 30])]

theorem mem_updOrApp {kv : String × ModelArtifact} {k : String} {v : ModelArtifact}
    {reg : List (String × ModelArtifact)} (h : kv ∈ updOrApp k v reg) :
    kv = (k, v) ∨ kv ∈ reg := by
  induction reg with
  | nil =>
    simp [updOrApp] at h
    exact Or.inl h
  | cons y rest ih =>
    simp only [updOrApp] at h
    by_cases hk : y.1 = k
    · simp only [if_pos hk, List.mem_cons] at h
      rcases h with h | h
      · exact Or.inl h
      · exact Or.inr (List.mem_cons_of_mem y h)
    · simp only [if_neg hk, List.mem_cons] at h
      rcases h with h | h
      · exact Or.inr (h ▸ List.mem_cons_self y rest)
      · rcases ih h with h' | h'
        · exact Or.inl h'
        · exact Or.inr (List.mem_cons_of_mem y h')

theorem map_fst_updOrApp (k : String) (v : ModelArtifact)
    (reg : List (String × ModelArtifact)) :
    (updOrApp k v reg).map Prod.fst = reg.map Prod.fst ∨
      ((updOrApp k v reg).map Prod.fst = reg.map Prod.fst ++ [k] ∧
        k ∉ reg.map Prod.fst) := by
  induction reg with
  | nil => simp [updOrApp]
  | cons y rest ih =>
    simp only [updOrApp]
    by_cases hk : y.1 = k
    · left
      simp [if_pos hk, hk]
    · rcases ih with h | ⟨h, hnot⟩
      · left
        simp [if_neg hk, h]
      · right
        constructor
        · simp [if_neg hk, h]
        · simp only [List.map_cons, List.mem_cons]
          rintro (h' | h')
          · exact hk h'.symm
          · exact hnot h'

theorem nodup_updOrApp {k : String} {v : ModelArtifact}
    {reg : List (String × ModelArtifact)} (h : (reg.map Prod.fst).Nodup) :
    ((updOrApp k v reg).map Prod.fst).Nodup := by
  rcases map_fst_updOrApp k v reg with he | ⟨he, hnot⟩
  · rw [he]; exact h
  · rw [he]
    simp only [List.nodup_append, List.nodup_cons]
    exact ⟨h, by simp, by simpa using fun hc => hnot hc⟩

theorem map_fst_setStatus (k : String) (st : ModelStatus)
    (reg : List (String × ModelArtifact)) :
    (setStatus k st reg).map Prod.fst = reg.map Prod.fst := by
  induction reg with
  | nil => rfl
  | cons y rest ih =>
    simp only [setStatus, List.map_cons] at ih ⊢
    by_cases hk : y.1 = k
    · simp [if_pos hk, hk, ih]
    · simp [if_neg hk, ih]

theorem mem_setStatus {kv : String × ModelArtifact} {k : String} {st : ModelStatus}
    {reg : List (String × ModelArtifact)} (h : kv ∈ setStatus k st reg) :
    (∃ w, (k, w) ∈ reg ∧ kv = (k, { w with status := st })) ∨
      (kv ∈ reg ∧ kv.1 ≠ k) := by
  simp only [setStatus, List.mem_map] at h
  obtain ⟨y, hy, heq⟩ := h
  by_cases hk : y.1 = k
  · left
    refine ⟨y.2, ?_, ?_⟩
    · rw [← hk]; exact hy
    · rw [← heq, if_pos hk, hk]
  · right
    rw [← heq, if_neg hk]
    exact ⟨hy, hk⟩

theorem lookupA_mem {reg : List (String × ModelArtifact)} {k : String}
    {a : ModelArtifact} (h : lookupA reg k = some a) : (k, a) ∈ reg := by
  induction reg with
  | nil => simp [lookupA] at h
  | cons y rest ih =>
    simp only [lookupA] at h
    by_cases hk : y.1 = k
    · rw [if_pos hk] at h
      subst hk
      have ha : y.2 = a := Option.some_inj.mp h
      subst ha
      simp
    · rw [if_neg hk] at h
      exact List.mem_cons_of_mem y (ih h)

theorem setStatus_cons (k : String) (st : ModelStatus) (y : String × ModelArtifact)
    (rest : List (String × ModelArtifact)) :
    setStatus k st (y :: rest) =
      (if y.1 = k then (y.1, { y.2 with status := st }) else y) :: setStatus k st rest :=
  rfl

theorem lookupA_setStatus_self (k : String) (st : ModelStatus)
    (reg : List (String × ModelArtifact)) :
    lookupA (setStatus k st reg) k =
      (lookupA reg k).map fun a => { a with status := st } := by
  induction reg with
  | nil => rfl
  | cons y rest ih =>
    rw [setStatus_cons]
    by_cases hk : y.1 = k
    · simp [lookupA, if_pos hk, hk]
    · simp only [lookupA, if_neg hk, ih]

theorem lookupA_setStatus_other {k k' : String} (hne : k' ≠ k) (st : ModelStatus)
    (reg : List (String × ModelArtifact)) :
    lookupA (setStatus k st reg) k' = lookupA reg k' := by
  induction reg with
  | nil => rfl
  | cons y rest ih =>
    rw [setStatus_cons]
    by_cases hk : y.1 = k
    · have h2 : y.1 ≠ k' := by rw [hk]; exact fun h => hne h.symm
      simp only [lookupA, if_pos hk]
      rw [if_neg h2, if_neg h2]
      exact ih
    · by_cases hk' : y.1 = k'
      · simp only [lookupA, if_neg hk, if_pos hk']
      · simp only [lookupA, if_neg hk, if_neg hk']
        exact ih

theorem length_le_one_of_all_eq {xs : List String} {c : String}
    (hnodup : xs.Nodup) (hall : ∀ x ∈ xs, x = c) : xs.length ≤ 1 := by
  match xs with
  | [] => simp
  | [x] => simp
  | x :: y :: rest =>
    exfalso
    have hx : x = c := hall x (by simp)
    have hy : y = c := hall y (by simp)
    rw [List.nodup_cons] at hnodup
    exact hnodup.1 (by rw [hx, hy]; exact List.mem_cons_self c rest)

theorem productionCount_le_one {s : ManagerState} (h : GoodState s) :
    productionCount s.model_registry ≤ 1 := by
  obtain ⟨hnodup, hprod⟩ := h
  cases hc : s.current_production_model with
  | none =>
    have hnil : (s.model_registry.filter
        fun kv => kv.2.status = ModelStatus.PRODUCTION) = [] := by
      rw [List.filter_eq_nil_iff]
      intro kv hkv hstat
      have := hprod kv hkv (by simpa using hstat)
      rw [hc] at this
      exact Option.noConfusion this
    simp [productionCount, hnil]
  | some c =>
    have hsub : ((s.model_registry.filter
        fun kv => kv.2.status = ModelStatus.PRODUCTION).map Prod.fst).Sublist
        (s.model_registry.map Prod.fst) :=
      (List.filter_sublist _).map Prod.fst
    have hnodup' := hnodup.sublist hsub
    have hall : ∀ x ∈ (s.model_registry.filter
        fun kv => kv.2.status = ModelStatus.PRODUCTION).map Prod.fst, x = c := by
      intro x hx
      obtain ⟨kv, hkv, rfl⟩ := List.mem_map.mp hx
      have hmem := List.mem_of_mem_filter hkv
      have hstat : kv.2.status = ModelStatus.PRODUCTION := by
        simpa using List.of_mem_filter hkv
      have := hprod kv hmem hstat
      rw [hc] at this
      exact (Option.some_inj.mp this).symm
    have := length_le_one_of_all_eq hnodup' hall
    simpa [productionCount] using this

theorem goodState_create (s : ManagerState) (vt : String) (now : Nat) (cb : String)
    (h : GoodState s) : GoodState (create_model_version s vt now cb).1 := by
  obtain ⟨hnodup, hprod⟩ := h
  unfold create_model_version GoodState
  constructor
  · exact nodup_updOrApp hnodup
  · intro kv hkv hstat
    rcases mem_updOrApp hkv with rfl | hmem
    · simp [new_artifact] at hstat
    · exact hprod kv hmem hstat

theorem goodState_deploy (loadable : String → Bool) (s : ManagerState)
    (model_id : String) (strategy : DeploymentStrategy) (force : Bool)
    (h : GoodState s) : GoodState (deploy_model loadable s model_id strategy force).1 := by
  obtain ⟨hnodup, hprod⟩ := h
  unfold deploy_model
  cases hl : lookupA s.model_registry model_id with
  | none => exact ⟨hnodup, hprod⟩
  | some artifact =>
    simp only []
    split
    · exact ⟨hnodup, hprod⟩
    · split
      · constructor
        · rw [map_fst_setStatus]
          cases s.current_production_model with
          | none => exact hnodup
          | some c => rw [map_fst_setStatus]; exact hnodup
        · intro kv hkv hstat
          rcases mem_setStatus hkv with ⟨w, hw, rfl⟩ | ⟨hkv1, hne⟩
          · rfl
          · cases hcur : s.current_production_model with
            | none =>
              rw [hcur] at hkv1
              have := hprod kv hkv1 hstat
              rw [hcur] at this
              exact Option.noConfusion this
            | some c =>
              rw [hcur] at hkv1
              rcases mem_setStatus hkv1 with ⟨w, hw, rfl⟩ | ⟨hkv2, hne2⟩
              · simp at hstat
              · have := hprod kv hkv2 hstat
                rw [hcur] at this
                exact absurd (Option.some_inj.mp this).symm hne2
      · exact ⟨hnodup, hprod⟩

theorem goodState_swap {s : ManagerState} {c t : String}
    (hnodup : (s.model_registry.map Prod.fst).Nodup)
    (hprod : ∀ kv ∈ s.model_registry, kv.2.status = ModelStatus.PRODUCTION →
      s.current_production_model = some kv.1)
    (hcur : s.current_production_model = some c) :
    GoodState { s with
      model_registry := setStatus t ModelStatus.PRODUCTION
        (setStatus c ModelStatus.DEPRECATED s.model_registry)
      current_production_model := some t } := by
  constructor
  · rw [map_fst_setStatus, map_fst_setStatus]
    exact hnodup
  · intro kv hkv hstat
    rcases mem_setStatus hkv with ⟨w, hw, rfl⟩ | ⟨hkv1, hne⟩
    · rfl
    · rcases mem_setStatus hkv1 with ⟨w, hw, rfl⟩ | ⟨hkv2, hne2⟩
      · simp at hstat
      · have := hprod kv hkv2 hstat
        rw [hcur] at this
        exact absurd (Option.some_inj.mp this).symm hne2

theorem goodState_rollback_inner (loadable : String → Bool) (s : ManagerState)
    (tv : Option String) (h : GoodState s) :
    GoodState (rollback_inner loadable s tv).1 := by
  obtain ⟨hnodup, hprod⟩ := h
  unfold rollback_inner
  split
  · exact ⟨hnodup, hprod⟩
  · rename_i c hcur
    simp only []
    split
    · exact ⟨hnodup, hprod⟩
    · split
      · split
        · exact ⟨hnodup, hprod⟩
        · split
          · exact goodState_swap hnodup hprod hcur
          · exact goodState_swap hnodup hprod hcur
      · exact ⟨hnodup, hprod⟩

theorem goodState_rollback (loadable : String → Bool) (s : ManagerState)
    (tv : Option String) (h : GoodState s) :
    GoodState (rollback_model loadable s tv).1 := by
  have hin := goodState_rollback_inner loadable s tv h
  unfold rollback_model
  cases hro : rollback_inner loadable s tv with
  | mk s' e =>
    rw [hro] at hin
    cases e <;> exact hin

theorem goodState_applyOp (loadable : String → Bool) (s : ManagerState)
    (op : RegistryOp) (h : GoodState s) : GoodState (applyOp loadable s op) := by
  cases op with
  | create vt now cb => exact goodState_create s vt now cb h
  | deploy model_id strategy force => exact goodState_deploy loadable s model_id strategy force h
  | rollback tv => exact goodState_rollback loadable s tv h

theorem goodState_runOps (loadable : String → Bool) (ops : List RegistryOp)
    (s : ManagerState) (h : GoodState s) : GoodState (runOps loadable s ops) := by
  induction ops generalizing s with
  | nil => exact h
  | cons op rest ih => exact ih _ (goodState_applyOp loadable s op h)

theorem goodState_initState : GoodState initState := by
  constructor
  · simp [initState]
  · intro kv hkv
    simp [initState] at hkv

/-- Claim C1: starting from the empty catalogue, after any finite sequence of
`create_model_version` / `deploy_model` / `rollback_model` calls (with any
model-loading outcomes), at most one artifact in `model_registry` has status
`PRODUCTION`. -/
theorem at_most_one_production_after_ops (loadable : String → Bool)
    (ops : List RegistryOp) :
    productionCount (runOps loadable initState ops).model_registry ≤ 1 :=
  productionCount_le_one (goodState_runOps loadable ops initState goodState_initState)

/-- Claim C7: for `ModelVersion` values with non-negative components, the
module's version comparison is exactly the lexicographic order on
`(major, minor, patch)`; `increment_patch` produces a strictly greater, new
value leaving major/minor unchanged; `increment_minor` bumps minor and
resets patch; `increment_major` bumps major and resets minor and patch. -/
theorem version_order_and_increments (v w : ModelVersion) :
    (ModelVersion.lt v w = true ↔
      Prod.Lex (· < ·) (Prod.Lex (· < ·) (· < ·)) v.key w.key) ∧
    ModelVersion.lt v v.increment_patch = true ∧
    v.increment_patch.major = v.major ∧ v.increment_patch.minor = v.minor ∧
    v.increment_patch.patch = v.patch + 1 ∧ v.increment_patch ≠ v ∧
    ModelVersion.lt v v.increment_minor = true ∧
    v.increment_minor.major = v.major ∧ v.increment_minor.minor = v.minor + 1 ∧
    v.increment_minor.patch = 0 ∧ v.increment_minor ≠ v ∧
    ModelVersion.lt v v.increment_major = true ∧
    v.increment_major.major = v.major + 1 ∧ v.increment_major.minor = 0 ∧
    v.increment_major.patch = 0 ∧ v.increment_major ≠ v := by
  obtain ⟨a, b, c⟩ := v
  obtain ⟨x, y, z⟩ := w
  refine ⟨?_, ?_, rfl, rfl, rfl, ?_, ?_, rfl, rfl, rfl, ?_, ?_, rfl, rfl, rfl, ?_⟩
  · simp only [ModelVersion.lt, pyTupleLt, ModelVersion.key, Bool.or_eq_true,
      Bool.and_eq_true, decide_eq_true_eq, beq_iff_eq, Prod.lex_def]
  · simp [ModelVersion.lt, pyTupleLt, ModelVersion.key, ModelVersion.increment_patch]
  · simp [ModelVersion.increment_patch, ModelVersion.mk.injEq]
  · simp [ModelVersion.lt, pyTupleLt, ModelVersion.key, ModelVersion.increment_minor]
  · simp [ModelVersion.increment_minor, ModelVersion.mk.injEq]
  · simp [ModelVersion.lt, pyTupleLt, ModelVersion.key, ModelVersion.increment_major]
  · simp [ModelVersion.increment_major, ModelVersion.mk.injEq]

theorem deploy_model_not_success_state (loadable : String → Bool) (s : ManagerState)
    (model_id : String) (strategy : DeploymentStrategy) (force : Bool) :
    (deploy_model loadable s model_id strategy force).2 = DeployOutcome.success ∨
      (deploy_model loadable s model_id strategy force).1 = s := by
  unfold deploy_model
  cases lookupA s.model_registry model_id with
  | none => right; rfl
  | some artifact =>
    simp only []
    split
    · right; rfl
    · split
      · left; rfl
      · right; rfl

/-- Claim C2: whenever `deploy_model` does not succeed — unknown id, artifact
not in `{VALIDATION, STAGING}` without `force`, or a failing
deployment-strategy execution — the manager state (in particular every
artifact status and `current_production_model`) is unchanged. -/
theorem deploy_failure_no_mutation (loadable : String → Bool) (s : ManagerState)
    (model_id : String) (strategy : DeploymentStrategy) (force : Bool)
    (h : (deploy_model loadable s model_id strategy force).2 ≠ DeployOutcome.success) :
    (deploy_model loadable s model_id strategy force).1 = s := by
  rcases deploy_model_not_success_state loadable s model_id strategy force with hs | hs
  · exact absurd hs h
  · exact hs

/-- Witness for claim C2: deploying the `TRAINING` artifact of
`trainOnlyState` without `force` fails and leaves the state intact. -/
theorem deploy_failure_no_mutation_witness :
    (deploy_model allLoadable trainOnlyState "m1" DeploymentStrategy.BLUE_GREEN
      false).1 = trainOnlyState :=
  deploy_failure_no_mutation allLoadable trainOnlyState "m1"
    DeploymentStrategy.BLUE_GREEN false (by decide)

theorem foldl_max_created_mem (kv : String × ModelArtifact)
    (rest : List (String × ModelArtifact)) :
    rest.foldl (fun best x => if best.2.created_at < x.2.created_at then x else best) kv ∈
      kv :: rest := by
  induction rest generalizing kv with
  | nil => simp
  | cons y ys ih =>
    simp only [List.foldl_cons]
    have ih' := ih (if kv.2.created_at < y.2.created_at then y else kv)
    rcases List.mem_cons.mp ih' with h | h
    · rw [h]
      by_cases hcl : kv.2.created_at < y.2.created_at
      · simp [hcl]
      · simp [hcl]
    · simp [List.mem_cons, Or.inr (Or.inr h)]

theorem lookupA_isSome_of_mem_fst {reg : List (String × ModelArtifact)} {k : String}
    (h : k ∈ reg.map Prod.fst) : ∃ a, lookupA reg k = some a := by
  induction reg with
  | nil => simp at h
  | cons y rest ih =>
    simp only [List.map_cons, List.mem_cons] at h
    by_cases hk : y.1 = k
    · exact ⟨y.2, by simp [lookupA, hk]⟩
    · rcases h with h | h
      · exact absurd h.symm hk
      · obtain ⟨a, ha⟩ := ih h
        exact ⟨a, by simp [lookupA, hk, ha]⟩

theorem resolve_target_mem_fst {reg : List (String × ModelArtifact)}
    {tv : Option String} {t : String}
    (h : resolve_rollback_target reg tv = some t) : t ∈ reg.map Prod.fst := by
  unfold resolve_rollback_target at h
  cases tv with
  | some v =>
    unfold find_model_by_version at h
    dsimp only at h
    cases hfs : ModelVersion.from_string v with
    | none => rw [hfs] at h; simp at h
    | some tvv =>
      rw [hfs] at h
      dsimp only at h
      cases hf : List.find? (fun kv =>
          kv.2.version.major == tvv.major && kv.2.version.minor == tvv.minor &&
            kv.2.version.patch == tvv.patch) reg with
      | none => rw [hf] at h; simp at h
      | some kv =>
        rw [hf] at h
        simp only [Option.map_some', Option.some_inj] at h
        have hmem := List.mem_of_find?_eq_some hf
        rw [← h]
        exact List.mem_map_of_mem Prod.fst hmem
  | none =>
    unfold find_latest_deprecated_model at h
    cases hfil : reg.filter (fun kv => kv.2.status = ModelStatus.DEPRECATED) with
    | nil => rw [hfil] at h; simp at h
    | cons kv rest =>
      rw [hfil] at h
      simp only [Option.some_inj] at h
      have hmem := foldl_max_created_mem kv rest
      rw [← hfil] at hmem
      have hreg := List.mem_of_mem_filter hmem
      rw [← h]
      exact List.mem_map_of_mem Prod.fst hreg

/-- Claim C3 (amended): with a current production model `c`, resolution goes
through `_find_model_by_version` for an explicit version and through
`_find_latest_deprecated_model` (max `created_at` among `DEPRECATED`)
otherwise; when the resolved target `t` is loadable and distinct from `c`,
rollback returns `True`, `t` becomes `PRODUCTION`, `c` becomes `DEPRECATED`,
and the production pointer moves to `t`.  (The distinctness proviso is forced
by the source: resolving the version already in production re-marks it
`PRODUCTION`, see the counterexample.) -/
theorem rollback_resolution_and_swap (loadable : String → Bool) (s : ManagerState)
    (c t : String) (tv : Option String) (a : ModelArtifact)
    (hcur : s.current_production_model = some c)
    (hres : resolve_rollback_target s.model_registry tv = some t)
    (hload : loadable t = true)
    (hc : lookupA s.model_registry c = some a)
    (hne : t ≠ c) :
    (rollback_model loadable s tv).2 = true ∧
    statusOf (rollback_model loadable s tv).1.model_registry t =
      some ModelStatus.PRODUCTION ∧
    statusOf (rollback_model loadable s tv).1.model_registry c =
      some ModelStatus.DEPRECATED ∧
    (rollback_model loadable s tv).1.current_production_model = some t := by
  obtain ⟨w, hw⟩ := lookupA_isSome_of_mem_fst (resolve_target_mem_fst hres)
  have hinner : rollback_inner loadable s tv =
      ({ s with
          model_registry := setStatus t ModelStatus.PRODUCTION
            (setStatus c ModelStatus.DEPRECATED s.model_registry)
          current_production_model := some t }, none) := by
    unfold rollback_inner
    rw [hcur]
    dsimp only
    rw [hres]
    dsimp only
    unfold verify_model_loadable
    rw [if_pos hload, hc]
    dsimp only
    rw [if_pos hload]
  have hroll : rollback_model loadable s tv =
      ({ s with
          model_registry := setStatus t ModelStatus.PRODUCTION
            (setStatus c ModelStatus.DEPRECATED s.model_registry)
          current_production_model := some t }, true) := by
    unfold rollback_model
    rw [hinner]
  rw [hroll]
  refine ⟨rfl, ?_, ?_, rfl⟩
  · unfold statusOf
    dsimp only
    rw [lookupA_setStatus_self, lookupA_setStatus_other hne, hw]
    rfl
  · unfold statusOf
    dsimp only
    rw [lookupA_setStatus_other (Ne.symm hne), lookupA_setStatus_self, hc]
    rfl

/-- Witness for claim C3: in `exRollbackState` (the claim's scenario),
`rollback(None)` resolves the most recently deprecated `v1.0.1` and
`rollback("1.0.0")` resolves `v1.0.0` exactly; each promoted target becomes
`PRODUCTION` and the prior production `v1.1.0` becomes `DEPRECATED`. -/
theorem rollback_resolution_and_swap_witness :
    (resolve_rollback_target exRollbackState.model_registry none = some "m_v101" ∧
      (rollback_model allLoadable exRollbackState none).2 = true ∧
      statusOf (rollback_model allLoadable exRollbackState none).1.model_registry
        "m_v101" = some ModelStatus.PRODUCTION ∧
      statusOf (rollback_model allLoadable exRollbackState none).1.model_registry
        "m_v110" = some ModelStatus.DEPRECATED) ∧
    (resolve_rollback_target exRollbackState.model_registry (some "1.0.0") =
        some "m_v100" ∧
      (rollback_model allLoadable exRollbackState (some "1.0.0")).2 = true ∧
      statusOf (rollback_model allLoadable exRollbackState (some "1.0.0")).1.model_registry
        "m_v100" = some ModelStatus.PRODUCTION ∧
      statusOf (rollback_model allLoadable exRollbackState (some "1.0.0")).1.model_registry
        "m_v110" = some ModelStatus.DEPRECATED) := by
  have h1 := rollback_resolution_and_swap allLoadable exRollbackState "m_v110" "m_v101"
    none (mkArtifact "m_v110" ⟨1, 1, 0⟩ ModelStatus.PRODUCTION 200)
    (by decide) (by decide) (by decide) (by decide) (by decide)
  have h2 := rollback_resolution_and_swap allLoadable exRollbackState "m_v110" "m_v100"
    (some "1.0.0") (mkArtifact "m_v110" ⟨1, 1, 0⟩ ModelStatus.PRODUCTION 200)
    (by decide) (by decide) (by decide) (by decide) (by decide)
  exact ⟨⟨by decide, h1.1, h1.2.1, h1.2.2.1⟩, ⟨by decide, h2.1, h2.2.1, h2.2.2.1⟩⟩

/-- Counterexample to claim C3 as stated: in `selfRollbackState` the current
production artifact is `v1.0.0` itself; `rollback("1.0.0")` resolves that
same artifact, returns `True`, and the prior production artifact ends up
`PRODUCTION` (the target re-mark overwrites the `DEPRECATED` mark), not
`DEPRECATED` as the claim requires of every successful rollback. -/
theorem rollback_self_target_counterexample :
    (rollback_model allLoadable selfRollbackState (some "1.0.0")).2 = true ∧
    statusOf (rollback_model allLoadable selfRollbackState
      (some "1.0.0")).1.model_registry "m1" = some ModelStatus.PRODUCTION ∧
    (some ModelStatus.PRODUCTION ≠ some ModelStatus.DEPRECATED) := by
  refine ⟨by decide, by decide, by decide⟩

theorem rollback_inner_error_state (loadable : String → Bool) (s : ManagerState)
    (tv : Option String) :
    (rollback_inner loadable s tv).2 = none ∨ (rollback_inner loadable s tv).1 = s := by
  unfold rollback_inner
  split
  · right; rfl
  · rename_i c hcur
    split
    · right; rfl
    · rename_i t hres
      split
      · rename_i hver
        split
        · right; rfl
        · unfold verify_model_loadable at hver
          rw [if_pos hver]
          left; rfl
      · right; rfl

/-- Claim C4 (amended): when a `NotFound` / `PreconditionFailed` /
`LoadFailure` condition occurs inside `rollback_model`, the raised
`ValueError` is caught by the blanket handler and surfaced to the caller only
as a `False` return value (with the state unchanged) — the typed error is
logged, not propagated. -/
theorem rollback_errors_swallowed (loadable : String → Bool) (s : ManagerState)
    (tv : Option String) (e : RollbackError)
    (herr : (rollback_inner loadable s tv).2 = some e) :
    (rollback_inner loadable s tv).1 = s ∧
    rollback_model loadable s tv = (s, false) := by
  have h1 : (rollback_inner loadable s tv).1 = s := by
    rcases rollback_inner_error_state loadable s tv with h | h
    · rw [herr] at h; exact Option.noConfusion h
    · exact h
  refine ⟨h1, ?_⟩
  have hpair : rollback_inner loadable s tv = (s, some e) := by
    have := Prod.mk.eta (p := rollback_inner loadable s tv)
    rw [← this, h1, herr]
  unfold rollback_model
  rw [hpair]

/-- Witness for claim C4: in `noProdState` the `PreconditionFailed` condition
("No production model to rollback from") occurs, and the caller receives
`(noProdState, false)`. -/
theorem rollback_errors_swallowed_witness :
    (rollback_inner allLoadable noProdState none).1 = noProdState ∧
    rollback_model allLoadable noProdState none = (noProdState, false) :=
  rollback_errors_swallowed allLoadable noProdState none
    RollbackError.PreconditionFailed (by decide)

/-- Counterexample to claim C4 as stated: rolling back with no production
model raises the `PreconditionFailed` `ValueError` inside the body, yet the
caller observes the plain boolean `False` (lines 527-529 catch every
exception), not a typed error. -/
theorem rollback_error_not_surfaced_counterexample :
    (rollback_inner allLoadable noProdState none).2 =
      some RollbackError.PreconditionFailed ∧
    (rollback_model allLoadable noProdState none).2 = false := by
  refine ⟨by decide, by decide⟩

/-- Claim C6 (amended): a `trigger_retraining` call made while
`retraining_in_progress` is `true` returns `false` immediately with the
state (registry included) untouched; and every call that passes the guard —
whatever the pipeline outcome — ends with `retraining_in_progress` cleared
back to `false` by the `finally` block.  (A busy-rejected call leaves the
flag `true`, because it belongs to the run still in flight — see the
counterexample for the claim's literal "after every call" reading.) -/
theorem trigger_retraining_guard (loadable : String → Bool) (train_ok : Bool)
    (now : Nat) (s : ManagerState) (sample_count : Nat) (force : Bool) :
    (s.retraining_in_progress = true →
      trigger_retraining loadable train_ok now s sample_count force = (s, false)) ∧
    (s.retraining_in_progress = false →
      (trigger_retraining loadable train_ok now s sample_count
        force).1.retraining_in_progress = false) := by
  constructor
  · intro h
    unfold trigger_retraining
    rw [if_pos h]
  · intro h
    unfold trigger_retraining
    rw [if_neg (by rw [h]; exact Bool.false_ne_true)]
    split
    · exact h
    · rfl

/-- Witness for claim C6: the busy state rejects a second call unchanged;
a guard-clear state ends with the guard cleared. -/
theorem trigger_retraining_guard_witness :
    trigger_retraining allLoadable true 0 busyState 0 false = (busyState, false) ∧
    (trigger_retraining allLoadable true 0 noProdState 0
      false).1.retraining_in_progress = false :=
  ⟨(trigger_retraining_guard allLoadable true 0 busyState 0 false).1 rfl,
   (trigger_retraining_guard allLoadable true 0 noProdState 0 false).2 rfl⟩

/-- Counterexample to claim C6 as stated: the busy-rejected call completes
(returning `false`, mutating nothing), yet `retraining_in_progress` is still
`true` afterwards — the flag belongs to the other run and is not cleared by
this call, contradicting "after every trigger_retraining call completes,
retraining_in_progress is false again". -/
theorem trigger_retraining_busy_flag_counterexample :
    (trigger_retraining allLoadable true 0 busyState 0 false).2 = false ∧
    (trigger_retraining allLoadable true 0 busyState 0 false).1 = busyState ∧
    busyState.retraining_in_progress = true :=
  ⟨rfl, rfl, rfl⟩

theorem lookupA_updOrApp_self (k : String) (v : ModelArtifact)
    (reg : List (String × ModelArtifact)) : lookupA (updOrApp k v reg) k = some v := by
  induction reg with
  | nil => simp [updOrApp, lookupA]
  | cons y rest ih =>
    simp only [updOrApp]
    by_cases hk : y.1 = k
    · simp [if_pos hk, lookupA]
    · rw [if_neg hk]
      show lookupA (y :: updOrApp k v rest) k = some v
      simp only [lookupA, if_neg hk]
      exact ih

theorem lookupA_updOrApp_other {k k' : String} (hne : k' ≠ k) (v : ModelArtifact)
    (reg : List (String × ModelArtifact)) :
    lookupA (updOrApp k v reg) k' = lookupA reg k' := by
  induction reg with
  | nil =>
    have h1 : ¬ (k = k') := fun h => hne h.symm
    simp [updOrApp, lookupA, h1]
  | cons y rest ih =>
    simp only [updOrApp]
    by_cases hk : y.1 = k
    · have h1 : ¬ (k = k') := fun h => hne h.symm
      have h2 : ¬ (y.1 = k') := by rw [hk]; exact h1
      simp only [if_pos hk, lookupA]
      rw [if_neg h1, if_neg h2]
    · by_cases hk' : y.1 = k'
      · simp only [if_neg hk, lookupA, if_pos hk']
      · simp only [if_neg hk, lookupA, if_neg hk']
        exact ih

theorem validate_model_synthetic_ok (loadable : String → Bool) (s : ManagerState)
    (mid : String) (art : ModelArtifact)
    (hl : lookupA s.model_registry mid = some art) (hld : loadable mid = true) :
    validate_model loadable s mid false =
      ({ s with
          model_registry := updOrApp mid
            { art with
                validation_results := some run_synthetic_validation
                performance_metrics := some run_synthetic_validation.metrics
                status := ModelStatus.VALIDATION } s.model_registry },
        Except.ok run_synthetic_validation) := by
  unfold validate_model
  rw [hl]
  dsimp only
  rw [if_pos hld]
  rfl

theorem validate_model_load_error (loadable : String → Bool) (s : ManagerState)
    (mid : String) (art : ModelArtifact)
    (hl : lookupA s.model_registry mid = some art) (hld : loadable mid = false) :
    validate_model loadable s mid false = (s, Except.error "failed to load model") := by
  unfold validate_model
  rw [hl]
  dsimp only
  rw [if_neg (by rw [hld]; exact Bool.false_ne_true)]

theorem execute_retraining_result_true (loadable : String → Bool) (now : Nat)
    (s : ManagerState) (hld : loadable (gen_model_id s "minor" now) = true) :
    (execute_retraining loadable true now s).result = true := by
  unfold execute_retraining
  rw [if_neg (by simp)]
  dsimp only
  have hgid : (create_model_version s "minor" now "automated_retraining").2 =
      gen_model_id s "minor" now := rfl
  have hc1 : (create_model_version s "minor" now "automated_retraining").1 =
      { s with
          model_registry := updOrApp (gen_model_id s "minor" now)
            (new_artifact s "minor" now "automated_retraining") s.model_registry } := rfl
  rw [hgid, hc1]
  rw [validate_model_synthetic_ok loadable _ (gen_model_id s "minor" now)
    (new_artifact s "minor" now "automated_retraining")
    (lookupA_updOrApp_self _ _ _) hld]
  dsimp only
  split
  · rfl
  · rfl

/-- Claim C5: in a retraining run that completes successfully, after the new
minor version is created and (synthetically) validated, `deploy_model` is
invoked exactly when the validation result passed and its reported r² is at
least `auto_deploy_threshold`; when the gate does not hold the new artifact
is left in `VALIDATION` and the prior production artifact keeps its
`PRODUCTION` status (the freshness hypothesis on the generated id holds in
every real run, since the bumped version exceeds all stored versions). -/
theorem retraining_auto_deploy_gate (loadable : String → Bool) (train_ok : Bool)
    (now : Nat) (s : ManagerState) (c : String)
    (hfresh : lookupA s.model_registry (gen_model_id s "minor" now) = none)
    (hres : (execute_retraining loadable train_ok now s).result = true) :
    ((execute_retraining loadable train_ok now s).deploy_invoked = true ↔
      (run_synthetic_validation.passed = true ∧
        s.retraining_config.auto_deploy_threshold ≤
          run_synthetic_validation.metrics.r2_score)) ∧
    ((execute_retraining loadable train_ok now s).deploy_invoked = false →
      statusOf (execute_retraining loadable train_ok now s).state.model_registry
        (gen_model_id s "minor" now) = some ModelStatus.VALIDATION ∧
      (execute_retraining loadable train_ok now s).state.current_production_model =
        s.current_production_model ∧
      (s.current_production_model = some c →
        statusOf s.model_registry c = some ModelStatus.PRODUCTION →
        statusOf (execute_retraining loadable train_ok now s).state.model_registry c =
          some ModelStatus.PRODUCTION)) := by
  have htr : train_ok = true := by
    by_contra htrn
    have htr' : train_ok = false := by
      revert htrn; cases train_ok <;> simp
    unfold execute_retraining at hres
    rw [if_pos (by rw [htr']; exact Bool.false_ne_true)] at hres
    exact Bool.noConfusion hres
  subst htr
  have hgid : (create_model_version s "minor" now "automated_retraining").2 =
      gen_model_id s "minor" now := rfl
  have hc1 : (create_model_version s "minor" now "automated_retraining").1 =
      { s with
          model_registry := updOrApp (gen_model_id s "minor" now)
            (new_artifact s "minor" now "automated_retraining") s.model_registry } := rfl
  by_cases hld : loadable (gen_model_id s "minor" now) = true
  case neg =>
    exfalso
    have hld' : loadable (gen_model_id s "minor" now) = false := by
      revert hld; cases loadable (gen_model_id s "minor" now) <;> simp
    unfold execute_retraining at hres
    rw [if_neg (by simp)] at hres
    dsimp only at hres
    rw [hgid, hc1] at hres
    rw [validate_model_load_error loadable _ (gen_model_id s "minor" now)
      (new_artifact s "minor" now "automated_retraining")
      (lookupA_updOrApp_self _ _ _) hld'] at hres
    exact Bool.noConfusion hres
  case pos =>
    unfold execute_retraining
    rw [if_neg (by simp)]
    dsimp only
    rw [hgid, hc1]
    rw [validate_model_synthetic_ok loadable _ (gen_model_id s "minor" now)
      (new_artifact s "minor" now "automated_retraining")
      (lookupA_updOrApp_self _ _ _) hld]
    dsimp only
    by_cases hgate : run_synthetic_validation.passed = true ∧
        s.retraining_config.auto_deploy_threshold ≤
          run_synthetic_validation.metrics.r2_score
    · rw [if_pos hgate]
      constructor
      · simp [hgate]
      · intro hinv
        exact absurd hinv (by simp)
    · rw [if_neg hgate]
      constructor
      · simp [hgate]
      · intro _
        refine ⟨?_, rfl, ?_⟩
        · unfold statusOf
          rw [lookupA_updOrApp_self]
          rfl
        · intro hcurc hstatc
          have hcne : c ≠ gen_model_id s "minor" now := by
            intro he
            rw [he] at hstatc
            unfold statusOf at hstatc
            rw [hfresh] at hstatc
            exact Option.noConfusion hstatc
          unfold statusOf at hstatc ⊢
          rw [lookupA_updOrApp_other hcne, lookupA_updOrApp_other hcne]
          exact hstatc

/-- Witness for claim C5: a retraining run over the empty registry (default
configuration: threshold `0.85`, synthetic r² `0.80`). -/
theorem retraining_auto_deploy_gate_witness :
    ((execute_retraining allLoadable true 0 noProdState).deploy_invoked = true ↔
      (run_synthetic_validation.passed = true ∧
        noProdState.retraining_config.auto_deploy_threshold ≤
          run_synthetic_validation.metrics.r2_score)) ∧
    ((execute_retraining allLoadable true 0 noProdState).deploy_invoked = false →
      statusOf (execute_retraining allLoadable true 0 noProdState).state.model_registry
        (gen_model_id noProdState "minor" 0) = some ModelStatus.VALIDATION ∧
      (execute_retraining allLoadable true 0 noProdState).state.current_production_model =
        noProdState.current_production_model ∧
      (noProdState.current_production_model = some "c0" →
        statusOf noProdState.model_registry "c0" = some ModelStatus.PRODUCTION →
        statusOf (execute_retraining allLoadable true 0 noProdState).state.model_registry
          "c0" = some ModelStatus.PRODUCTION)) :=
  retraining_auto_deploy_gate allLoadable true 0 noProdState "c0" rfl
    (execute_retraining_result_true allLoadable 0 noProdState rfl)

theorem charsLe_total : ∀ a b : List Char, charsLe a b = true ∨ charsLe b a = true := by
  intro a
  induction a with
  | nil => intro b; left; rfl
  | cons c cs ih =>
    intro b
    cases b with
    | nil => right; rfl
    | cons d ds =>
      by_cases hcd : c = d
      · subst hcd
        simp only [charsLe, if_pos rfl]
        exact ih ds
      · rcases lt_or_gt_of_ne hcd with h | h
        · left
          simp [charsLe, hcd, h]
        · right
          have hdc : ¬ d = c := fun he => hcd he.symm
          simp [charsLe, hdc, h]

theorem charsLe_trans : ∀ a b c : List Char,
    charsLe a b = true → charsLe b c = true → charsLe a c = true := by
  intro a
  induction a with
  | nil => intro b c _ _; rfl
  | cons x xs ih =>
    intro b c hab hbc
    cases b with
    | nil => exact absurd hab (by simp [charsLe])
    | cons y ys =>
      cases c with
      | nil => exact absurd hbc (by simp [charsLe])
      | cons z zs =>
        by_cases hxy : x = y
        · subst hxy
          simp only [charsLe, if_pos rfl] at hab
          by_cases hyz : x = z
          · subst hyz
            simp only [charsLe, if_pos rfl] at hbc ⊢
            exact ih _ _ hab hbc
          · simp only [charsLe, if_neg hyz] at hbc ⊢
            exact hbc
        · simp only [charsLe, if_neg hxy, decide_eq_true_eq] at hab
          by_cases hyz : y = z
          · subst hyz
            simp only [charsLe, if_neg hxy, decide_eq_true_eq]
            exact hab
          · simp only [charsLe, if_neg hyz, decide_eq_true_eq] at hbc
            have hxz : x < z := lt_trans hab hbc
            simp only [charsLe, if_neg (ne_of_lt hxz), decide_eq_true_eq]
            exact hxz

theorem charsLe_antisymm : ∀ a b : List Char,
    charsLe a b = true → charsLe b a = true → a = b := by
  intro a
  induction a with
  | nil =>
    intro b hab hba
    cases b with
    | nil => rfl
    | cons d ds => exact absurd hba (by simp [charsLe])
  | cons c cs ih =>
    intro b hab hba
    cases b with
    | nil => exact absurd hab (by simp [charsLe])
    | cons d ds =>
      by_cases hcd : c = d
      · subst hcd
        simp only [charsLe, if_pos rfl] at hab hba
        rw [ih ds hab hba]
      · simp only [charsLe, if_neg hcd, decide_eq_true_eq] at hab
        have hdc : ¬ d = c := fun he => hcd he.symm
        simp only [charsLe, if_neg hdc, decide_eq_true_eq] at hba
        exact absurd hba (lt_asymm hab)

theorem stringDataInj {a b : String} (h : a.data = b.data) : a = b := by
  cases a
  cases b
  exact congrArg String.mk h

theorem pathKeyLe_total (a b : String × List Nat) : pathKeyLe a b ∨ pathKeyLe b a :=
  charsLe_total a.1.data b.1.data

theorem pathKeyLe_trans {a b c : String × List Nat} :
    pathKeyLe a b → pathKeyLe b c → pathKeyLe a c :=
  fun h1 h2 => charsLe_trans _ _ _ h1 h2

theorem pathKeyLt_antisymm (a b : String × List Nat) :
    pathKeyLt a b → pathKeyLt b a → a = b := by
  intro h1 h2
  exact absurd (stringDataInj (charsLe_antisymm _ _ h1.1 h2.1)) h1.2

theorem sortByPath_perm (d : List (String × List Nat)) :
    List.Perm (sortByPath d) d :=
  List.perm_insertionSort pathKeyLe d

theorem sortByPath_sorted (d : List (String × List Nat)) :
    (sortByPath d).Sorted pathKeyLe := by
  haveI : IsTotal (String × List Nat) pathKeyLe := ⟨pathKeyLe_total⟩
  haveI : IsTrans (String × List Nat) pathKeyLe :=
    ⟨fun _ _ _ hab hbc => pathKeyLe_trans hab hbc⟩
  exact List.sorted_insertionSort pathKeyLe d

theorem pairwise_and_of {α : Type} {R S : α → α → Prop} {l : List α}
    (h1 : l.Pairwise R) (h2 : l.Pairwise S) :
    l.Pairwise fun a b => R a b ∧ S a b := by
  induction l with
  | nil => exact List.Pairwise.nil
  | cons x xs ih =>
    rw [List.pairwise_cons] at h1 h2 ⊢
    exact ⟨fun y hy => ⟨h1.1 y hy, h2.1 y hy⟩, ih h1.2 h2.2⟩

theorem sortByPath_sorted_lt {d : List (String × List Nat)}
    (hnd : (d.map Prod.fst).Nodup) : (sortByPath d).Sorted pathKeyLt := by
  have hs := sortByPath_sorted d
  have hnd' : ((sortByPath d).map Prod.fst).Nodup :=
    (((sortByPath_perm d).map Prod.fst).nodup_iff).mpr hnd
  have hne : (sortByPath d).Pairwise fun a b => a.1 ≠ b.1 := List.pairwise_map.mp hnd'
  exact pairwise_and_of hs hne

theorem sortByPath_eq_of_perm {d1 d2 : List (String × List Nat)}
    (hp : List.Perm d1 d2)
    (hnd : (d1.map Prod.fst).Nodup) : sortByPath d1 = sortByPath d2 := by
  haveI : IsAntisymm (String × List Nat) pathKeyLt := ⟨pathKeyLt_antisymm⟩
  have hnd2 : (d2.map Prod.fst).Nodup := ((hp.map Prod.fst).nodup_iff).mp hnd
  exact List.eq_of_perm_of_sorted
    ((sortByPath_perm d1).trans (hp.trans (sortByPath_perm d2).symm))
    (sortByPath_sorted_lt hnd) (sortByPath_sorted_lt hnd2)

theorem flatten_orderedInsert_empty (p : String) (l : List (String × List Nat)) :
    ((List.orderedInsert pathKeyLe (p, ([] : List Nat)) l).map Prod.snd).flatten =
      (l.map Prod.snd).flatten := by
  induction l with
  | nil => simp
  | cons y ys ih =>
    by_cases h : pathKeyLe (p, ([] : List Nat)) y
    · simp [List.orderedInsert, if_pos h]
    · simp only [List.orderedInsert, if_neg h, List.map_cons, List.flatten_cons, ih]

theorem length_flatten_orderedInsert (x : String × List Nat)
    (l : List (String × List Nat)) :
    (((List.orderedInsert pathKeyLe x l).map Prod.snd).flatten).length =
      x.2.length + ((l.map Prod.snd).flatten).length := by
  induction l with
  | nil => simp
  | cons y ys ih =>
    by_cases h : pathKeyLe x y
    · simp [List.orderedInsert, if_pos h]
    · simp only [List.orderedInsert, if_neg h, List.map_cons, List.flatten_cons,
        List.length_append, ih]
      omega

theorem hasher_input_cons (x : String × List Nat) (d : List (String × List Nat)) :
    hasher_input (x :: d) =
      ((List.orderedInsert pathKeyLe x (sortByPath d)).map Prod.snd).flatten := rfl

/-- Claim C8 (amended): the checksum is deterministic — it depends only on
the finite set of `(path, contents)` files, not on the traversal order
(stated as invariance under permutation, for duplicate-free paths); adding
or removing a file with non-empty contents changes the byte stream fed to
the hash; but adding or removing an empty file leaves the stream — and hence
the checksum — unchanged, because the loop hashes only file contents
(no paths, sizes or separators enter the hash). -/
theorem checksum_determinism_and_sensitivity (sha256 : List Nat → List Nat)
    (d d2 : List (String × List Nat)) (p : String) (c : List Nat)
    (hp : List.Perm d d2) (hnd : (d.map Prod.fst).Nodup) (hc : c ≠ []) :
    calculate_checksum sha256 d = calculate_checksum sha256 d2 ∧
    hasher_input ((p, ([] : List Nat)) :: d) = hasher_input d ∧
    hasher_input ((p, c) :: d) ≠ hasher_input d := by
  refine ⟨?_, ?_, ?_⟩
  · unfold calculate_checksum hasher_input
    rw [sortByPath_eq_of_perm hp hnd]
  · rw [hasher_input_cons]
    exact flatten_orderedInsert_empty p (sortByPath d)
  · rw [hasher_input_cons]
    intro he
    have hlen := length_flatten_orderedInsert (p, c) (sortByPath d)
    rw [he] at hlen
    have hlen' : (hasher_input d).length =
        c.length + (hasher_input d).length := hlen
    have hcl : c.length = 0 := by omega
    exact hc (List.length_eq_zero.mp hcl)

/-- Witness for claim C8: a two-file directory, a permuted traversal of it,
and the addition of an empty and of a non-empty file. -/
theorem checksum_determinism_and_sensitivity_witness :
    calculate_checksum idDigest dirTwo = calculate_checksum idDigest dirTwoPerm ∧
    hasher_input (("metadata.json", ([] : List Nat)) :: dirTwo) = hasher_input dirTwo ∧
    hasher_input (("metadata.json", [7]) :: dirTwo) ≠ hasher_input dirTwo :=
  checksum_determinism_and_sensitivity idDigest dirTwo dirTwoPerm "metadata.json" [7]
    (by decide) (by decide) (by decide)

/-- Counterexample to claim C8 as stated: adding the empty file
`metadata.json` to `dirBase` leaves the hasher input byte-for-byte identical,
so the SHA-256 checksum (a function of that stream — exhibited here with the
identity digest, and hash-independent by the stream equality) does not
change, although a file was added to the directory. -/
theorem checksum_add_empty_file_counterexample :
    hasher_input dirWithEmpty = hasher_input dirBase ∧
    calculate_checksum idDigest dirWithEmpty = calculate_checksum idDigest dirBase := by
  refine ⟨by decide, by decide⟩

theorem monitor_performance_ok_metrics (r2f rmsef maef : List ℚ → List ℚ → ℚ)
    (loadable : String → Bool) (s : ManagerState)
    (health_scores : List (String × ℚ)) (actual_outcomes : Option (List (String × ℚ)))
    (latency_ms drift : ℚ) (now : Nat) (s2 : ManagerState) (m : PerformanceMetrics)
    (hok : monitor_performance r2f rmsef maef loadable s health_scores actual_outcomes
      latency_ms drift now = (s2, Except.ok m)) :
    m = calculate_performance_metrics r2f rmsef maef s health_scores actual_outcomes
      latency_ms drift now := by
  unfold monitor_performance at hok
  cases hcur : s.current_production_model with
  | none =>
    rw [hcur] at hok
    have := congrArg Prod.snd hok
    exact Except.noConfusion this
  | some pid =>
    rw [hcur] at hok
    dsimp only at hok
    by_cases hld : loadable pid = true
    · rw [if_pos hld] at hok
      have := congrArg Prod.snd hok
      exact (Except.ok.inj this).symm
    · rw [if_neg hld] at hok
      have := congrArg Prod.snd hok
      exact Except.noConfusion this

/-- Claim C9 (amended): when `actual_outcomes` is not supplied (or is empty —
Python truthiness of the `if actual_outcomes:` test), the r²/RMSE/MAE of the
returned `PerformanceMetrics` are the fixed placeholder constants `0.80`,
`15.0`, `10.0`, irrespective of the production artifact's stored validation
metrics; when outcomes are supplied and more than one prediction exists,
they are computed by the external metric functions against those outcomes
(missing device ids default to `0`). -/
theorem monitor_placeholder_metrics (r2f rmsef maef : List ℚ → List ℚ → ℚ)
    (loadable : String → Bool) (s : ManagerState)
    (health_scores : List (String × ℚ)) (actual_outcomes : Option (List (String × ℚ)))
    (latency_ms drift : ℚ) (now : Nat) (s2 : ManagerState) (m : PerformanceMetrics)
    (hok : monitor_performance r2f rmsef maef loadable s health_scores actual_outcomes
      latency_ms drift now = (s2, Except.ok m)) :
    (truthyOutcomes actual_outcomes = false →
      m.r2_score = 0.80 ∧ m.rmse = 15.0 ∧ m.mae = 10.0) ∧
    (truthyOutcomes actual_outcomes = true → 1 < health_scores.length →
      m.r2_score = r2f
        (health_scores.map fun kv =>
          match (actual_outcomes.getD []).find? (fun o => o.1 == kv.1) with
          | some o => o.2
          | none => 0)
        (health_scores.map Prod.snd) ∧
      m.rmse = rmsef
        (health_scores.map fun kv =>
          match (actual_outcomes.getD []).find? (fun o => o.1 == kv.1) with
          | some o => o.2
          | none => 0)
        (health_scores.map Prod.snd) ∧
      m.mae = maef
        (health_scores.map fun kv =>
          match (actual_outcomes.getD []).find? (fun o => o.1 == kv.1) with
          | some o => o.2
          | none => 0)
        (health_scores.map Prod.snd)) := by
  have hm := monitor_performance_ok_metrics r2f rmsef maef loadable s health_scores
    actual_outcomes latency_ms drift now s2 m hok
  subst hm
  constructor
  · intro htr
    cases actual_outcomes with
    | none => exact ⟨rfl, rfl, rfl⟩
    | some outcomes =>
      cases outcomes with
      | nil => exact ⟨rfl, rfl, rfl⟩
      | cons o os => exact absurd htr (by simp [truthyOutcomes])
  · intro htr hlen
    cases actual_outcomes with
    | none => simp [truthyOutcomes] at htr
    | some outcomes =>
      cases outcomes with
      | nil => simp [truthyOutcomes] at htr
      | cons o os =>
        unfold calculate_performance_metrics
        dsimp only
        rw [if_neg (by simp : ¬ (o :: os = ([] : List (String × ℚ))))]
        rw [if_pos hlen]
        exact ⟨rfl, rfl, rfl⟩

/-- Witness for claim C9: a monitored batch over `validatedProdState` with no
outcomes supplied. -/
theorem monitor_placeholder_metrics_witness :
    (truthyOutcomes (none : Option (List (String × ℚ))) = false →
      (calculate_performance_metrics zeroMetric zeroMetric zeroMetric validatedProdState
        [("d1", 50)] none 5 0 0).r2_score = 0.80 ∧
      (calculate_performance_metrics zeroMetric zeroMetric zeroMetric validatedProdState
        [("d1", 50)] none 5 0 0).rmse = 15.0 ∧
      (calculate_performance_metrics zeroMetric zeroMetric zeroMetric validatedProdState
        [("d1", 50)] none 5 0 0).mae = 10.0) ∧
    (truthyOutcomes (none : Option (List (String × ℚ))) = true →
      1 < ([("d1", (50 : ℚ))]).length →
      (calculate_performance_metrics zeroMetric zeroMetric zeroMetric validatedProdState
        [("d1", 50)] none 5 0 0).r2_score = zeroMetric
        (([("d1", (50 : ℚ))]).map fun kv =>
          match ((none : Option (List (String × ℚ))).getD []).find?
              (fun o => o.1 == kv.1) with
          | some o => o.2
          | none => 0)
        (([("d1", (50 : ℚ))]).map Prod.snd) ∧
      (calculate_performance_metrics zeroMetric zeroMetric zeroMetric validatedProdState
        [("d1", 50)] none 5 0 0).rmse = zeroMetric
        (([("d1", (50 : ℚ))]).map fun kv =>
          match ((none : Option (List (String × ℚ))).getD []).find?
              (fun o => o.1 == kv.1) with
          | some o => o.2
          | none => 0)
        (([("d1", (50 : ℚ))]).map Prod.snd) ∧
      (calculate_performance_metrics zeroMetric zeroMetric zeroMetric validatedProdState
        [("d1", 50)] none 5 0 0).mae = zeroMetric
        (([("d1", (50 : ℚ))]).map fun kv =>
          match ((none : Option (List (String × ℚ))).getD []).find?
              (fun o => o.1 == kv.1) with
          | some o => o.2
          | none => 0)
        (([("d1", (50 : ℚ))]).map Prod.snd)) :=
  monitor_placeholder_metrics zeroMetric zeroMetric zeroMetric allLoadable
    validatedProdState [("d1", 50)] none 5 0 0
    { validatedProdState with
        performance_history := validatedProdState.performance_history ++
          [calculate_performance_metrics zeroMetric zeroMetric zeroMetric
            validatedProdState [("d1", 50)] none 5 0 0] }
    (calculate_performance_metrics zeroMetric zeroMetric zeroMetric validatedProdState
      [("d1", 50)] none 5 0 0)
    rfl

/-- Counterexample to claim C9 as stated: `validatedProdState`'s production
artifact stores the validation metrics `r2 = 0.85` (from `_run_validation`),
but `monitor_performance` without outcomes reports `r2 = 0.80` — the fixed
default written in `_calculate_performance_metrics`, not the artifact's last
known validation metrics. -/
theorem monitor_placeholder_counterexample :
    (match (monitor_performance zeroMetric zeroMetric zeroMetric allLoadable
        validatedProdState [("d1", 50)] none 5 0 0).2 with
      | Except.ok m => some m.r2_score
      | Except.error _ => none) = some 0.80 ∧
    ((lookupA validatedProdState.model_registry "mp").map fun a =>
      a.performance_metrics.map fun mm => mm.r2_score) = some (some 0.85) ∧
    (0.80 : ℚ) ≠ 0.85 := by
  refine ⟨rfl, rfl, by norm_num⟩

/-- Claim C10: the throughput computation of `monitor_performance` is total —
with strictly positive measured latency it equals
`prediction_count / (latency_ms / 1000)`, and with zero or negative latency
the guard yields `0` without dividing. -/
theorem monitor_throughput_total (r2f rmsef maef : List ℚ → List ℚ → ℚ)
    (loadable : String → Bool) (s : ManagerState)
    (health_scores : List (String × ℚ)) (actual_outcomes : Option (List (String × ℚ)))
    (latency_ms drift : ℚ) (now : Nat) (s2 : ManagerState) (m : PerformanceMetrics)
    (hok : monitor_performance r2f rmsef maef loadable s health_scores actual_outcomes
      latency_ms drift now = (s2, Except.ok m)) :
    (0 < latency_ms →
      m.throughput_requests_per_second =
        (health_scores.length : ℚ) / (latency_ms / 1000)) ∧
    (latency_ms ≤ 0 → m.throughput_requests_per_second = 0) := by
  have hm := monitor_performance_ok_metrics r2f rmsef maef loadable s health_scores
    actual_outcomes latency_ms drift now s2 m hok
  subst hm
  constructor
  · intro hpos
    unfold calculate_performance_metrics
    dsimp only
    rw [if_pos hpos]
  · intro hneg
    unfold calculate_performance_metrics
    dsimp only
    rw [if_neg (not_lt.mpr hneg)]

/-- Witness for claim C10: one prediction scored in 5 ms. -/
theorem monitor_throughput_total_witness :
    (0 : ℚ) < 5 ∧
    (calculate_performance_metrics zeroMetric zeroMetric zeroMetric validatedProdState
      [("d1", 50)] none 5 0 0).throughput_requests_per_second =
      (([("d1", (50 : ℚ))]).length : ℚ) / (5 / 1000) :=
  ⟨by norm_num,
    (monitor_throughput_total zeroMetric zeroMetric zeroMetric allLoadable
      validatedProdState [("d1", 50)] none 5 0 0
      { validatedProdState with
          performance_history := validatedProdState.performance_history ++
            [calculate_performance_metrics zeroMetric zeroMetric zeroMetric
              validatedProdState [("d1", 50)] none 5 0 0] }
      (calculate_performance_metrics zeroMetric zeroMetric zeroMetric
        validatedProdState [("d1", 50)] none 5 0 0)
      rfl).1 (by norm_num)⟩
